import Mathlib

/-
Verification of the energy-metric derivation and aggregation pipeline of the
ai-energy-dashboard repository (two near-duplicate dashboard scripts:
ai_energy_dashboard_final.py and ai_energy_dashboard_scaled_final.py).

The embedding models one CSV row after read_csv(parse_dates=["created_at"]) as
a record: created_at is seconds since the Unix epoch (1970-01-01 was a
Thursday); numeric columns are rationals (exact arithmetic stands in for the
floats of the source, whose claimed identities are stated "within
floating-point tolerance"); the optional raw energy field
energy_consumption_llm_total is carried as the outcome of
pd.to_numeric(..., errors="coerce"): some q when the raw field parses as
numeric, none when it is missing or non-numeric.
-/

namespace AIEnergy

/-- One row of the input table as produced by read_csv with parsed timestamps:
the source columns the pipeline reads. -/
structure Row where
  created_at : Nat
  model_name : String
  device : Option String
  total_duration : ℚ
  energy_consumption_llm_total : Option ℚ
  response_token_length : ℚ
deriving DecidableEq

/-- The seven weekday names in the fixed Monday-first order used by the
heatmap column selection (source line pivot[["Monday", ..., "Sunday"]]). -/
def dayNames : List String :=
  ["Monday", "Tuesday", "Wednesday", "Thursday", "Friday", "Saturday", "Sunday"]

/-- Weekday name of a timestamp in seconds since the epoch, as
created_at.dt.day_name(): day 0 (1970-01-01) was a Thursday, index 3 in the
Monday-first list. -/
def weekdayOf (ts : Nat) : String :=
  dayNames.getD ((ts / 86400 + 3) % 7) ""

/-- A row of the loaded table of ai_energy_dashboard_scaled_final.py: the
source columns plus the derived columns added by load_data. -/
structure LoadedRow extends Row where
  hour : Nat
  weekday : String
  measured_energy_joules : Option ℚ
  estimated_energy_joules : ℚ
  final_energy_joules : ℚ
  energy_kwh : ℚ
  co2_kg : ℚ
  lightbulb_hours : ℚ
deriving DecidableEq

/-- Empirically determined scale factor of
ai_energy_dashboard_scaled_final.py (line: scale_factor = 50493). -/
def scale_factor : ℚ := 50493

/-- Per-row body of load_data in ai_energy_dashboard_scaled_final.py
(lines 12-23): hour = created_at floored to the hour, weekday = day name,
measured = to_numeric(raw) * scale_factor (none when the raw field does not
parse), estimated = total_duration / 1e9,
final = measured.fillna(estimated), then kwh, co2 and lightbulb conversions
from final_energy_joules. -/
def loadRow (r : Row) : LoadedRow :=
  let measured := r.energy_consumption_llm_total.map (fun x => x * scale_factor)
  let estimated := r.total_duration / 1000000000
  let final := measured.getD estimated
  let kwh := final / 3600000
  { toRow := r
    hour := r.created_at / 3600
    weekday := weekdayOf r.created_at
    measured_energy_joules := measured
    estimated_energy_joules := estimated
    final_energy_joules := final
    energy_kwh := kwh
    co2_kg := kwh * (475 / 1000)
    lightbulb_hours := final / (50 * 3600) }

/-- load_data of ai_energy_dashboard_scaled_final.py applied to a table. -/
def load_data (src : List Row) : List LoadedRow := src.map loadRow

/-- A row of the loaded table of ai_energy_dashboard_final.py (the first
variant): source columns plus its derived columns (lines 12-17). -/
structure LoadedRowV1 extends Row where
  hour : Nat
  weekday : String
  energy_joules : ℚ
  energy_kwh : ℚ
  co2_kg : ℚ
  lightbulb_hours : ℚ
deriving DecidableEq

/-- Per-row body of load_data in ai_energy_dashboard_final.py (lines 12-17):
energy_joules = total_duration / 1e9, then the kwh, co2 and lightbulb
conversions from energy_joules. -/
def loadRowV1 (r : Row) : LoadedRowV1 :=
  let joules := r.total_duration / 1000000000
  let kwh := joules / 3600000
  { toRow := r
    hour := r.created_at / 3600
    weekday := weekdayOf r.created_at
    energy_joules := joules
    energy_kwh := kwh
    co2_kg := kwh * (475 / 1000)
    lightbulb_hours := joules / (50 * 3600) }

/-- Membership test df["device"].isin(selected_devices): a null device never
matches a selection of strings (the selections offered by the sidebar are
drawn from the dropna()'d option list, so they contain no null). -/
def deviceMem (d : Option String) (sel : List String) : Bool :=
  match d with
  | some s => sel.contains s
  | none => false

/-- Filter step (line 37 of ai_energy_dashboard_final.py, line 51 of
ai_energy_dashboard_scaled_final.py):
df[(df["model_name"].isin(selected_models)) & (df["device"].isin(selected_devices))]. -/
def df_filtered (t : List LoadedRow) (selModels selDevices : List String) :
    List LoadedRow :=
  t.filter (fun r => selModels.contains r.model_name && deviceMem r.device selDevices)

/-- device option list df["device"].dropna().unique(): first occurrences of
the distinct non-null device values. -/
def uniqueKeys {α : Type _} [DecidableEq α] : List α → List α
  | [] => []
  | x :: xs => x :: (uniqueKeys xs).filter (fun y => y ≠ x)

/-- Sidebar device options (line 24 / line 30):
df["device"].dropna().unique(). -/
def device_options (t : List LoadedRow) : List String :=
  uniqueKeys (t.filterMap (fun r => r.device))

/-- Unit resolution chain of ai_energy_dashboard_scaled_final.py
(lines 55-62): if kwh divide by 3.6e6, elif co2 divide by 3.6e6 and multiply
by 0.475, elif bulb divide by 50*3600, else (any other token, including raw)
pass the base energy through unchanged. -/
def display_energy (base : ℚ) (unitType : String) : ℚ :=
  if unitType = "kwh" then base / 3600000
  else if unitType = "co2" then (base / 3600000) * (475 / 1000)
  else if unitType = "bulb" then base / (50 * 3600)
  else base

/-- groupby(key)[val].sum(): one entry per distinct key of the table, with the
sum of val over the rows carrying that key. pandas sorts the group keys; the
claims below do not depend on key order, so first-occurrence order is kept. -/
def groupSum {ρ κ : Type _} [DecidableEq κ] (t : List ρ) (key : ρ → κ)
    (val : ρ → ℚ) : List (κ × ℚ) :=
  (uniqueKeys (t.map key)).map
    (fun k => (k, ((t.filter (fun r => key r = k)).map val).sum))

/-- Hourly-by-model series (line 48 / line 74):
groupby(["hour", "model_name"])[value].sum(). -/
def hourly_model (t : List LoadedRow) (val : LoadedRow → ℚ) :
    List ((Nat × String) × ℚ) :=
  groupSum t (fun r => (r.hour, r.model_name)) val

/-- Device totals view (line 56 of ai_energy_dashboard_final.py):
groupby("device")[value].sum(). pandas groupby drops rows whose key is null,
so the grouping runs over the rows with a non-null device. -/
def device_energy (t : List LoadedRow) (val : LoadedRow → ℚ) :
    List (String × ℚ) :=
  groupSum (t.filter (fun r => r.device.isSome)) (fun r => r.device.getD "") val

/-- Model-by-device cross table (line 64 / line 82):
groupby(["model_name", "device"])[value].sum(), null device groups dropped. -/
def cross_data (t : List LoadedRow) (val : LoadedRow → ℚ) :
    List ((String × String) × ℚ) :=
  groupSum (t.filter (fun r => r.device.isSome))
    (fun r => (r.model_name, r.device.getD "")) val

/-- Series.nunique(): the number of distinct values. -/
def nunique {α : Type _} [DecidableEq α] (l : List α) : Nat :=
  (uniqueKeys l).length

/-- The 7-day forecast table (lines 72-77 / lines 89-93):
avg_hourly = groupby("model_name")[value].sum() / groupby("model_name")["hour"].nunique(),
forecast_value = avg_hourly * 24 * 7, one entry per distinct model. -/
def forecast_df (t : List LoadedRow) (val : LoadedRow → ℚ) :
    List (String × ℚ) :=
  (uniqueKeys (t.map (fun r => r.model_name))).map
    (fun m =>
      (m, ((t.filter (fun r => r.model_name = m)).map val).sum /
            ((nunique ((t.filter (fun r => r.model_name = m)).map
              (fun r => r.hour)) : ℚ)) * (24 * 7)))

/-- hour of day created_at.dt.hour (line 86 / line 101). -/
def hourOfDay (r : LoadedRow) : Nat := r.created_at / 3600 % 24

/-- The shape of the heatmap pivot: its row index and its column index. -/
structure PivotShape where
  rowKeys : List Nat
  colKeys : List String
deriving DecidableEq

/-- One cell of pivot_table(values=value, index="hour_of_day",
columns="weekday", aggfunc="sum").fillna(0): the sum of the value column over
the rows at that (hour of day, weekday); a combination with no rows is the
NaN that fillna(0) turns into 0, here directly the empty sum 0. -/
def pivotCell (t : List LoadedRow) (val : LoadedRow → ℚ) (h : Nat)
    (w : String) : ℚ :=
  ((t.filter (fun r => hourOfDay r = h && r.weekday = w)).map val).sum

/-- Shape of the heatmap step (lines 86-88 / lines 101-103): pivot_table
indexes by the distinct hour_of_day values present and columns by the distinct
weekday names present; the subsequent column selection
pivot[["Monday", ..., "Sunday"]] reorders the columns to the fixed
Monday-first week when every one of the seven names is a column, and raises a
KeyError otherwise (in particular on the empty table, whose pivot has no
columns at all). -/
def pivot_step (t : List LoadedRow) : Except String PivotShape :=
  let cols := uniqueKeys (t.map (fun r => r.weekday))
  if dayNames.all (fun w => cols.contains w) then
    Except.ok
      { rowKeys := (List.range 24).filter (fun h => (t.map hourOfDay).contains h)
        colKeys := dayNames }
  else
    Except.error "KeyError"

/-- Token-length scatter table (line 95 / line 110): row-level passthrough of
(response_token_length, value, model_name). -/
def token_scatter (t : List LoadedRow) (val : LoadedRow → ℚ) :
    List (ℚ × ℚ × String) :=
  t.map (fun r => (r.response_token_length, val r, r.model_name))

/-- uniqueKeys keeps exactly the values of the list. -/
theorem mem_uniqueKeys {α : Type _} [DecidableEq α] (l : List α) (a : α) :
    a ∈ uniqueKeys l ↔ a ∈ l := by
  induction l with
  | nil => simp [uniqueKeys]
  | cons x xs ih =>
    simp only [uniqueKeys, List.mem_cons, List.mem_filter,
      decide_eq_true_eq, ih]
    constructor
    · intro h
      rcases h with h | ⟨hmem, _⟩
      · exact Or.inl h
      · exact Or.inr hmem
    · intro h
      rcases h with h | hmem
      · exact Or.inl h
      · by_cases hax : a = x
        · exact Or.inl hax
        · exact Or.inr ⟨hmem, hax⟩

/-- uniqueKeys has no duplicate entries. -/
theorem nodup_uniqueKeys {α : Type _} [DecidableEq α] (l : List α) :
    (uniqueKeys l).Nodup := by
  induction l with
  | nil => simp [uniqueKeys]
  | cons x xs ih =>
    simp only [uniqueKeys]
    refine List.nodup_cons.mpr ⟨?_, List.Nodup.filter _ ih⟩
    intro hx
    have hne := (List.mem_filter.mp hx).2
    simp at hne

/-- Summing a pointwise sum of two maps splits into two sums. -/
theorem sum_map_add {α : Type _} (l : List α) (f g : α → ℚ) :
    (l.map (fun x => f x + g x)).sum = (l.map f).sum + (l.map g).sum := by
  induction l with
  | nil => simp
  | cons x xs ih => simp [ih]; ring

/-- Over a duplicate-free key list containing a, the sum of the indicator of a
is its value. -/
theorem sum_indicator {κ : Type _} [DecidableEq κ] (ks : List κ) (a : κ)
    (c : ℚ) (hnd : ks.Nodup) (ha : a ∈ ks) :
    (ks.map (fun k => if a = k then c else 0)).sum = c := by
  induction ks with
  | nil => simp at ha
  | cons k ks ih =>
    rcases List.nodup_cons.mp hnd with ⟨hk, hnd'⟩
    rcases List.mem_cons.mp ha with h | h
    · subst h
      have : ∀ x ∈ ks, (if a = x then c else 0) = 0 := by
        intro x hx
        have : a ≠ x := fun he => hk (he ▸ hx)
        simp [this]
      simp [List.map_congr_left this]
    · have hak : a ≠ k := fun he => hk (he ▸ h)
      simp [hak, ih hnd' h]

/-- Grouped sums over a duplicate-free key list covering every row conserve
the total. -/
theorem grouped_sum_eq {ρ κ : Type _} [DecidableEq κ] (t : List ρ)
    (key : ρ → κ) (val : ρ → ℚ) (ks : List κ) (hnd : ks.Nodup)
    (hcov : ∀ r ∈ t, key r ∈ ks) :
    (ks.map (fun k => ((t.filter (fun r => key r = k)).map val).sum)).sum
      = (t.map val).sum := by
  induction t with
  | nil => simp
  | cons r t ih =>
    have hker : key r ∈ ks := hcov r (List.mem_cons_self r t)
    have step : ∀ k, (((r :: t).filter (fun x => key x = k)).map val).sum
        = (if key r = k then val r else 0)
          + ((t.filter (fun x => key x = k)).map val).sum := by
      intro k
      by_cases h : key r = k <;> simp [List.filter_cons, h]
    calc (ks.map (fun k =>
            (((r :: t).filter (fun x => key x = k)).map val).sum)).sum
        = (ks.map (fun k => (if key r = k then val r else 0)
            + ((t.filter (fun x => key x = k)).map val).sum)).sum := by
          rw [List.map_congr_left (fun k _ => step k)]
      _ = (ks.map (fun k => if key r = k then val r else 0)).sum
            + (ks.map (fun k =>
                ((t.filter (fun x => key x = k)).map val).sum)).sum :=
          sum_map_add ks _ _
      _ = val r + (t.map val).sum := by
          have hind : (ks.map (fun k => if key r = k then val r else 0)).sum
              = val r := by
            have : (fun k => if key r = k then val r else 0)
                = (fun k => if key r = k then val r else 0) := rfl
            exact sum_indicator ks (key r) (val r) hnd hker
          rw [hind, ih (fun x hx => hcov x (List.mem_cons_of_mem r hx))]
      _ = ((r :: t).map val).sum := by simp

/-- The entries of a groupSum sum to the total of the value column. -/
theorem groupSum_total {ρ κ : Type _} [DecidableEq κ] (t : List ρ)
    (key : ρ → κ) (val : ρ → ℚ) :
    ((groupSum t key val).map Prod.snd).sum = (t.map val).sum := by
  unfold groupSum
  rw [List.map_map]
  exact grouped_sum_eq t key val (uniqueKeys (t.map key))
    (nodup_uniqueKeys _)
    (fun r hr => (mem_uniqueKeys _ _).mpr (List.mem_map_of_mem key hr))

/-- contains agrees with membership for types with lawful boolean equality. -/
theorem contains_true_iff {α : Type _} [BEq α] [LawfulBEq α] {l : List α}
    {a : α} : l.contains a = true ↔ a ∈ l := by
  simp [List.contains, List.elem_eq_mem]

/-- Forecast value per the spec's words: sum(display_energy) divided by the
count of distinct hour buckets, multiplied by 168; compared below against the
forecast_df computed by the code. -/
def spec_forecast_value (t : List LoadedRow) (val : LoadedRow → ℚ)
    (m : String) : ℚ :=
  ((t.filter (fun r => r.model_name = m)).map val).sum /
    (nunique ((t.filter (fun r => r.model_name = m)).map (fun r => r.hour)) : ℚ)
      * 168

/-- The value function used at concrete inputs below: display_energy of the
final_energy_joules column under the raw unit. -/
def rawFinal : LoadedRow → ℚ :=
  fun r => display_energy r.final_energy_joules "raw"

/-- Under the raw unit the resolver is the identity (evaluation lemma used
when computing concrete view values). -/
theorem display_energy_raw (b : ℚ) : display_energy b "raw" = b := rfl

/-- Concrete source row k (spec section 8 example shape): model A on gpu0
with a one-hour duration, raw measured field absent. -/
def specRow (k : Nat) : Row :=
  { created_at := 1800 * k
    model_name := "A"
    device := some "gpu0"
    total_duration := 3600000000000
    energy_consumption_llm_total := none
    response_token_length := 0 }

/-- Concrete loaded three-row table used as input to filtered views. -/
def specTable : List LoadedRow := load_data [specRow 0, specRow 1, specRow 2]

/-- Concrete row with a distinct hour bucket per k and a 10-joule estimated
energy (total_duration = 1e10 ns). -/
def forecastRow (k : Nat) : Row :=
  { created_at := 3600 * k
    model_name := "A"
    device := some "gpu0"
    total_duration := 10000000000
    energy_consumption_llm_total := none
    response_token_length := 0 }

/-- Concrete loaded table: model A in exactly 3 distinct hours, display
energy 10 per row under the raw unit. -/
def forecastSample : List LoadedRow :=
  load_data [forecastRow 0, forecastRow 1, forecastRow 2]

/-- Concrete row on day k since the epoch (k = 0 is a Thursday). -/
def weekRow (k : Nat) : Row :=
  { created_at := 86400 * k
    model_name := "A"
    device := some "gpu0"
    total_duration := 3600000000000
    energy_consumption_llm_total := none
    response_token_length := 0 }

/-- Concrete loaded table covering all seven weekday names. -/
def weekTable : List LoadedRow := load_data ((List.range 7).map weekRow)

/-- Concrete row falling on a Monday (day 4 after the epoch Thursday). -/
def mondayRow : Row :=
  { created_at := 4 * 86400
    model_name := "A"
    device := some "gpu0"
    total_duration := 3600000000000
    energy_consumption_llm_total := none
    response_token_length := 0 }

/-- Concrete source row with a null device field. -/
def nullDeviceRow : Row :=
  { created_at := 0
    model_name := "A"
    device := none
    total_duration := 3600000000000
    energy_consumption_llm_total := none
    response_token_length := 0 }

/-- C1: for every row of the loaded table, final_energy_joules equals the raw
measured field parsed as numeric times the scale factor 50493 when the raw
field parses as numeric, and otherwise equals estimated_energy_joules =
total_duration / 1e9. -/
theorem final_energy_measured_fallback (r : Row) :
    (loadRow r).final_energy_joules =
      match r.energy_consumption_llm_total with
      | some x => x * 50493
      | none => r.total_duration / 1000000000 := by
  cases h : r.energy_consumption_llm_total <;>
    simp [loadRow, h, scale_factor]

/-- C6: for every row of the loaded table, estimated_energy_joules equals
total_duration / 1e9, energy_kwh equals final_energy_joules / 3.6e6, co2_kg
equals energy_kwh times 0.475, and lightbulb_hours equals the final joules
value divided by 180000. -/
theorem derived_unit_conversions (r : Row) :
    (loadRow r).estimated_energy_joules = r.total_duration / 1000000000 ∧
    (loadRow r).energy_kwh = (loadRow r).final_energy_joules / 3600000 ∧
    (loadRow r).co2_kg = (loadRow r).energy_kwh * (475 / 1000) ∧
    (loadRow r).lightbulb_hours = (loadRow r).final_energy_joules / 180000 := by
  refine ⟨rfl, rfl, rfl, ?_⟩
  show (loadRow r).final_energy_joules / (50 * 3600)
      = (loadRow r).final_energy_joules / 180000
  norm_num

/-- C10: the loaders only add derived columns: for both dashboard variants,
every source field of every row is carried unchanged into the loaded row, and
the loaded table projects back onto the source table. -/
theorem load_data_frame (src : List Row) (r : Row) :
    (loadRow r).toRow = r ∧ (loadRowV1 r).toRow = r ∧
    (load_data src).map (fun lr => lr.toRow) = src := by
  refine ⟨rfl, rfl, ?_⟩
  rw [load_data, List.map_map]
  have h : ∀ x ∈ src, ((fun lr : LoadedRow => lr.toRow) ∘ loadRow) x = id x :=
    fun x _ => rfl
  rw [List.map_congr_left h, List.map_id]

/-- C5 counterexample: the unit resolution chain produces a display value for
the unknown unit token "watts" (identical to the raw passthrough) instead of
failing: no UnknownUnitError exists in the code. -/
theorem unknown_unit_no_error :
    display_energy 7 "watts" = 7 ∧
    display_energy 7 "watts" = display_energy 7 "raw" := by
  constructor <;> rfl

/-- C5 amended: for every value and every unit token other than kwh, co2 and
bulb — including every unknown token — the resolver passes the value through
unchanged, exactly as for raw; it never fails. -/
theorem unknown_unit_passthrough (base : ℚ) (u : String) (hk : u ≠ "kwh")
    (hc : u ≠ "co2") (hb : u ≠ "bulb") : display_energy base u = base := by
  simp [display_energy, hk, hc, hb]

/-- C5 amended witness at the concrete unknown token "watts". -/
theorem unknown_unit_passthrough_witness : display_energy 7 "watts" = 7 :=
  unknown_unit_passthrough 7 "watts" (by decide) (by decide) (by decide)

/-- C8: filtering an already-filtered table again with superset selections
returns the same table. -/
theorem filter_idempotent_superset (t : List LoadedRow)
    (M1 D1 M2 D2 : List String) (hM : ∀ m ∈ M1, m ∈ M2)
    (hD : ∀ d ∈ D1, d ∈ D2) :
    df_filtered (df_filtered t M1 D1) M2 D2 = df_filtered t M1 D1 := by
  apply List.filter_eq_self.mpr
  intro r hr
  have h1 := List.of_mem_filter hr
  rw [Bool.and_eq_true] at h1 ⊢
  obtain ⟨hm, hd⟩ := h1
  constructor
  · exact contains_true_iff.mpr (hM _ (contains_true_iff.mp hm))
  · cases hdev : r.device with
    | some s =>
      rw [hdev] at hd
      exact contains_true_iff.mpr (hD _ (contains_true_iff.mp hd))
    | none => rw [hdev] at hd; exact absurd hd (by simp [deviceMem])

/-- C8 witness at a concrete table and concrete superset selections. -/
theorem filter_idempotent_superset_witness :
    df_filtered (df_filtered specTable ["A"] ["gpu0"]) ["A", "B"]
        ["gpu0", "gpu1"]
      = df_filtered specTable ["A"] ["gpu0"] :=
  filter_idempotent_superset specTable ["A"] ["gpu0"] ["A", "B"]
    ["gpu0", "gpu1"] (by decide) (by decide)

/-- C9: every row whose device field is null is excluded from the filtered
table, whatever selection of models and devices (all selections are lists of
strings, drawn in the UI from the dropna()'d device option list), so every
downstream view aggregates only rows with a non-null device. -/
theorem null_device_excluded (t : List LoadedRow) (M D : List String)
    (r : LoadedRow) (hnull : r.device = none) : r ∉ df_filtered t M D := by
  intro hr
  have h := List.of_mem_filter hr
  rw [Bool.and_eq_true] at h
  rw [hnull] at h
  exact absurd h.2 (by simp [deviceMem])

/-- C9 witness: the concrete null-device row is excluded even under the
select-all selection built from the table's own device options. -/
theorem null_device_excluded_witness :
    (loadRow nullDeviceRow).device = none ∧
    loadRow nullDeviceRow ∉
      df_filtered (load_data [nullDeviceRow, specRow 0]) ["A"]
        (device_options (load_data [nullDeviceRow, specRow 0])) :=
  ⟨rfl, null_device_excluded _ _ _ _ rfl⟩

/-- C7: for every table and selection, the device totals view of the filtered
table sums to the filtered table's total value sum (total_val): the
device-grouped aggregation conserves the total, since filtering leaves no
null-device row for groupby to drop. -/
theorem device_totals_conserve (t : List LoadedRow) (M D : List String)
    (val : LoadedRow → ℚ) :
    ((device_energy (df_filtered t M D) val).map Prod.snd).sum
      = ((df_filtered t M D).map val).sum := by
  have hsome : ∀ r ∈ df_filtered t M D, r.device.isSome = true := by
    intro r hr
    have h := List.of_mem_filter hr
    rw [Bool.and_eq_true] at h
    cases hdev : r.device with
    | some s => rfl
    | none => rw [hdev] at h; exact absurd h.2 (by simp [deviceMem])
  unfold device_energy
  rw [List.filter_eq_self.mpr hsome]
  exact groupSum_total _ _ _

/-- C4: for every model present in the table, the 7-day forecast table
contains the pair (model, sum of its value column divided by the count of its
distinct hour buckets, times 168). -/
theorem forecast_matches_spec (t : List LoadedRow) (val : LoadedRow → ℚ)
    (m : String) (hm : m ∈ t.map (fun r => r.model_name)) :
    (m, spec_forecast_value t val m) ∈ forecast_df t val := by
  unfold forecast_df
  refine List.mem_map.mpr ⟨m, (mem_uniqueKeys _ m).mpr hm, ?_⟩
  unfold spec_forecast_value
  norm_num

/-- C4 witness: the model present in exactly 3 distinct hours with total
display energy 30 is forecast at 1680. -/
theorem forecast_matches_spec_witness :
    ("A", (1680 : ℚ)) ∈ forecast_df forecastSample rawFinal ∧
    spec_forecast_value forecastSample rawFinal "A" = 1680 := by
  have h := forecast_matches_spec forecastSample rawFinal "A" (by decide)
  have he : spec_forecast_value forecastSample rawFinal "A" = 1680 := by
    norm_num [spec_forecast_value, forecastSample, forecastRow, load_data,
      loadRow, rawFinal, display_energy_raw, nunique, uniqueKeys,
      scale_factor, List.filter_cons]
  exact ⟨he ▸ h, he⟩

/-- C2: at the failing input (the empty model selection over a concrete
loaded table) the filtered table is empty; the hourly series, device totals,
cross table, forecast and scatter views all return zero-row results, but the
weekday heatmap's pivot step raises a KeyError instead of returning an empty
result. -/
theorem empty_selection_views :
    df_filtered specTable [] ["gpu0"] = [] ∧
    hourly_model (df_filtered specTable [] ["gpu0"]) rawFinal = [] ∧
    device_energy (df_filtered specTable [] ["gpu0"]) rawFinal = [] ∧
    cross_data (df_filtered specTable [] ["gpu0"]) rawFinal = [] ∧
    forecast_df (df_filtered specTable [] ["gpu0"]) rawFinal = [] ∧
    token_scatter (df_filtered specTable [] ["gpu0"]) rawFinal = [] ∧
    pivot_step (df_filtered specTable [] ["gpu0"]) = Except.error "KeyError" :=
  ⟨rfl, rfl, rfl, rfl, rfl, rfl, rfl⟩

/-- C3 counterexample: a non-empty filtered table whose rows cover a single
weekday: the pivot step raises a KeyError, so it produces no 7-column 24-row
grid. -/
theorem pivot_shape_cex :
    df_filtered (load_data [mondayRow]) ["A"] ["gpu0"] ≠ [] ∧
    ¬ ∃ p : PivotShape,
        pivot_step (df_filtered (load_data [mondayRow]) ["A"] ["gpu0"])
            = Except.ok p ∧
          p.colKeys.length = 7 ∧ p.rowKeys.length = 24 := by
  constructor
  · decide
  · rintro ⟨p, hp, -, -⟩
    have herr : pivot_step (df_filtered (load_data [mondayRow]) ["A"] ["gpu0"])
        = Except.error "KeyError" := rfl
    rw [herr] at hp
    exact Except.noConfusion hp

/-- C3 amended: when every one of the seven weekday names occurs in the
table, the pivot step succeeds with exactly the 7 columns in Monday..Sunday
order; its rows are exactly the distinct hour_of_day values present in the
data (each an hour 0..23, without duplicates, but not always all 24), and
every (hour, weekday) combination with no data rows has cell value 0. -/
theorem pivot_shape_all_weekdays (t : List LoadedRow) (val : LoadedRow → ℚ)
    (h7 : ∀ w ∈ dayNames, w ∈ t.map (fun r => r.weekday)) :
    ∃ p : PivotShape,
      pivot_step t = Except.ok p ∧
      p.colKeys = dayNames ∧ p.colKeys.length = 7 ∧
      p.rowKeys.Nodup ∧
      (∀ h, h ∈ p.rowKeys ↔ h ∈ t.map hourOfDay) ∧
      (∀ h ∈ p.rowKeys, h < 24) ∧
      (∀ h w, t.filter (fun r => hourOfDay r = h && r.weekday = w) = [] →
        pivotCell t val h w = 0) := by
  have hcond : dayNames.all
      (fun w => (uniqueKeys (t.map (fun r => r.weekday))).contains w) = true := by
    rw [List.all_eq_true]
    intro w hw
    exact contains_true_iff.mpr ((mem_uniqueKeys _ w).mpr (h7 w hw))
  have hlt : ∀ x ∈ t.map hourOfDay, x < 24 := by
    intro x hx
    rcases List.mem_map.mp hx with ⟨r, _, rfl⟩
    exact Nat.mod_lt _ (by norm_num)
  refine ⟨⟨(List.range 24).filter (fun h => (t.map hourOfDay).contains h),
      dayNames⟩, ?_, rfl, rfl, ?_, ?_, ?_, ?_⟩
  · unfold pivot_step
    rw [if_pos hcond]
  · exact List.Nodup.filter _ (List.nodup_range 24)
  · intro h
    constructor
    · intro hmem
      exact contains_true_iff.mp (List.of_mem_filter hmem)
    · intro hmem
      exact List.mem_filter.mpr
        ⟨List.mem_range.mpr (hlt h hmem), contains_true_iff.mpr hmem⟩
  · intro h hmem
    exact List.mem_range.mp (List.mem_filter.mp hmem).1
  · intro h w hempty
    unfold pivotCell
    rw [hempty]
    rfl

/-- C3 amended witness at the concrete seven-day table covering every
weekday name. -/
theorem pivot_shape_all_weekdays_witness :
    ∃ p : PivotShape,
      pivot_step weekTable = Except.ok p ∧
      p.colKeys = dayNames ∧ p.colKeys.length = 7 ∧
      p.rowKeys.Nodup ∧
      (∀ h, h ∈ p.rowKeys ↔ h ∈ weekTable.map hourOfDay) ∧
      (∀ h ∈ p.rowKeys, h < 24) ∧
      (∀ h w,
          weekTable.filter (fun r => hourOfDay r = h && r.weekday = w) = [] →
        pivotCell weekTable rawFinal h w = 0) :=
  pivot_shape_all_weekdays weekTable rawFinal (by decide)

end AIEnergy
